import Mathlib

/-!
Verification of the Free Fire screen-capture prototype (Flask service).

The repository has two HTTP-service variants:
* src/main.py — the browser-capture variant, routes GET /, POST /start_capture,
  POST /upload_screenshot; the upload handler checks both that the multipart
  field "screenshot" is present and that its filename is non-empty.
* src/deploy_render.py — the render-deployment variant, routes
  POST /start_capture and POST /upload_screenshot; its upload handler checks
  only that the field is present (no filename check) and uses different
  error and advisory strings.

The shallow embedding below models a multipart request as the list of its
file parts (field name, filename, raw bytes), a response as a status code
plus a body that is either plain text or a JSON object of string pairs, and
each Flask view function as a total Lean function from requests to responses.
The route decorators are embedded as a table of (method, path, endpoint).
-/

namespace FreeFireCapture

/-- One uploaded file part of a multipart/form-data request: its filename
and its raw content bytes, as Flask exposes them in request.files. -/
structure FilePart where
  filename : String
  content : List Nat
  deriving DecidableEq

/-- A multipart HTTP request, reduced to what the handlers inspect:
the file parts keyed by their form-field name. -/
structure Request where
  files : List (String × FilePart)
  deriving DecidableEq

/-- Lookup of a form field in request.files: the check
"screenshot not in request.files" and the access request.files[field]
of the Python code. -/
def Request.getFile (r : Request) (field : String) : Option FilePart :=
  r.files.lookup field

/-- A response body: plain text (the advisory channel) or a JSON object
with string values (what jsonify produces for the handlers here). -/
inductive Body where
  | text : String → Body
  | json : List (String × String) → Body
  deriving DecidableEq

/-- An HTTP response: status code and body. -/
structure Response where
  status : Nat
  body : Body
  deriving DecidableEq

/-- The apostrophe character, kept out of string literals. -/
def apos : String := (Char.ofNat 39).toString

/-- The fixed advisory literal of src/main.py line 232. -/
def mainAdvisory : String :=
  "Screenshot received! Analysis: Enemy spotted at 3 o" ++ apos ++
    "clock. Reload and fire! Health low - heal up."

/-- The fixed advisory literal of src/deploy_render.py line 21. -/
def deployAdvisory : String :=
  "Screenshot received! Analysis: Enemy at 12 o" ++ apos ++ "clock."

/-- src/main.py start_capture (lines 215-219): always 200 with a fixed
JSON object. -/
def start_capture (_ : Request) : Response :=
  ⟨200, Body.json [("status", "success"),
    ("message", "Capture started! Use frontend button.")]⟩

/-- src/deploy_render.py start_capture (lines 6-10): always 200 with a fixed
JSON object. -/
def deploy_start_capture (_ : Request) : Response :=
  ⟨200, Body.json [("status", "success"),
    ("message", "Capture started! Check your local machine.")]⟩

/-- src/main.py upload_screenshot (lines 221-234): 400 when the field
"screenshot" is absent, 400 when its filename is empty, otherwise 200 with
the fixed advisory as plain text. -/
def upload_screenshot (r : Request) : Response :=
  match r.getFile "screenshot" with
  | none => ⟨400, Body.json [("error", "No screenshot provided")]⟩
  | some file =>
      if file.filename = "" then
        ⟨400, Body.json [("error", "No file selected")]⟩
      else
        ⟨200, Body.text mainAdvisory⟩

/-- src/deploy_render.py upload_screenshot (lines 12-22): 400 when the field
"screenshot" is absent (with a shorter error string than main.py), otherwise
200 with its fixed advisory; there is no filename check. -/
def deploy_upload_screenshot (r : Request) : Response :=
  match r.getFile "screenshot" with
  | none => ⟨400, Body.json [("error", "No screenshot")]⟩
  | some _ => ⟨200, Body.text deployAdvisory⟩

/-- The route decorators of src/main.py: (method, path, endpoint). -/
def main_route_table : List (String × String × String) :=
  [("GET", "/", "home"),
   ("POST", "/start_capture", "start_capture"),
   ("POST", "/upload_screenshot", "upload_screenshot")]

/-- The route decorators of src/deploy_render.py: (method, path, endpoint). -/
def deploy_route_table : List (String × String × String) :=
  [("POST", "/start_capture", "start_capture"),
   ("POST", "/upload_screenshot", "upload_screenshot")]

/-- The path component of a route-table entry. -/
def routePath (e : String × String × String) : String := e.2.1

/-- Substring containment on strings, by checking a prefix match at every
offset. -/
def containsSubstr (s pat : String) : Bool :=
  (List.range (s.length + 1)).any fun i => pat.data.isPrefixOf (s.data.drop i)

/-- A minimal PNG-header byte sequence used as concrete upload content. -/
def pngBytes : List Nat := [137, 80, 78, 71, 13, 10, 26, 10]

/-- A request with no file parts at all. -/
def reqNone : Request := ⟨[]⟩

/-- A request whose screenshot part has an empty filename. -/
def reqEmptyName : Request := ⟨[("screenshot", ⟨"", pngBytes⟩)]⟩

/-- A valid upload: field "screenshot", non-empty filename, PNG bytes. -/
def reqPng : Request := ⟨[("screenshot", ⟨"screenshot.png", pngBytes⟩)]⟩

/-- A second valid upload with different filename and different bytes. -/
def reqJpg : Request := ⟨[("screenshot", ⟨"frame.jpg", [255, 216, 255]⟩)]⟩

/-- A valid upload whose content bytes are empty. -/
def reqNoContent : Request := ⟨[("screenshot", ⟨"empty.png", []⟩)]⟩

/-- Reduction of the main.py handler when the screenshot field is present. -/
theorem upload_screenshot_some (r : Request) (f : FilePart)
    (h : r.getFile "screenshot" = some f) :
    upload_screenshot r =
      if f.filename = "" then
        ⟨400, Body.json [("error", "No file selected")]⟩
      else
        ⟨200, Body.text mainAdvisory⟩ := by
  unfold upload_screenshot
  rw [h]

/-- Reduction of the main.py handler when the screenshot field is absent. -/
theorem upload_screenshot_none (r : Request)
    (h : r.getFile "screenshot" = none) :
    upload_screenshot r = ⟨400, Body.json [("error", "No screenshot provided")]⟩ := by
  unfold upload_screenshot
  rw [h]

/-- Reduction of the deploy_render.py handler when the field is present. -/
theorem deploy_upload_screenshot_some (r : Request) (f : FilePart)
    (h : r.getFile "screenshot" = some f) :
    deploy_upload_screenshot r = ⟨200, Body.text deployAdvisory⟩ := by
  unfold deploy_upload_screenshot
  rw [h]

/-- Reduction of the deploy_render.py handler when the field is absent. -/
theorem deploy_upload_screenshot_none (r : Request)
    (h : r.getFile "screenshot" = none) :
    deploy_upload_screenshot r = ⟨400, Body.json [("error", "No screenshot")]⟩ := by
  unfold deploy_upload_screenshot
  rw [h]

/-- Claim C1: every multipart POST to upload_screenshot whose files contain
the field screenshot with a non-empty filename gets HTTP 200 with a
non-empty plain-text body, in both service variants. -/
theorem C1_valid_upload_200_nonempty (r : Request) (f : FilePart)
    (h : r.getFile "screenshot" = some f) (hn : f.filename ≠ "") :
    ((upload_screenshot r).status = 200 ∧
      ∃ s, (upload_screenshot r).body = Body.text s ∧ s ≠ "") ∧
    ((deploy_upload_screenshot r).status = 200 ∧
      ∃ s, (deploy_upload_screenshot r).body = Body.text s ∧ s ≠ "") := by
  rw [upload_screenshot_some r f h, if_neg hn, deploy_upload_screenshot_some r f h]
  exact ⟨⟨rfl, mainAdvisory, rfl, by decide⟩, ⟨rfl, deployAdvisory, rfl, by decide⟩⟩

/-- Witness for C1 at a concrete PNG upload with a non-empty filename. -/
theorem C1_witness :
    (upload_screenshot reqPng).status = 200 ∧
    (deploy_upload_screenshot reqPng).status = 200 :=
  ⟨(C1_valid_upload_200_nonempty reqPng ⟨"screenshot.png", pngBytes⟩
      (by decide) (by decide)).1.1,
   (C1_valid_upload_200_nonempty reqPng ⟨"screenshot.png", pngBytes⟩
      (by decide) (by decide)).2.1⟩

/-- Counterexample to claim C2: on a request without the screenshot field,
the deploy_render.py variant answers 400 with the JSON error string
No screenshot, not the claimed No screenshot provided. -/
theorem C2_counterexample :
    (deploy_upload_screenshot reqNone).status = 400 ∧
    (deploy_upload_screenshot reqNone).body = Body.json [("error", "No screenshot")] ∧
    (deploy_upload_screenshot reqNone).body ≠
      Body.json [("error", "No screenshot provided")] := by
  decide

/-- Claim C2 as amended: when the field screenshot is absent, both variants
return 400 with a one-key JSON error body; main.py says No screenshot
provided while deploy_render.py says No screenshot. -/
theorem C2_missing_field_400 (r : Request)
    (h : r.getFile "screenshot" = none) :
    upload_screenshot r = ⟨400, Body.json [("error", "No screenshot provided")]⟩ ∧
    deploy_upload_screenshot r = ⟨400, Body.json [("error", "No screenshot")]⟩ :=
  ⟨upload_screenshot_none r h, deploy_upload_screenshot_none r h⟩

/-- Witness for the amended C2 at the concrete empty request. -/
theorem C2_witness :
    upload_screenshot reqNone =
      ⟨400, Body.json [("error", "No screenshot provided")]⟩ :=
  (C2_missing_field_400 reqNone rfl).1

/-- Counterexample to claim C3: with the field present but the filename
empty, the deploy_render.py variant returns 200, not 400. -/
theorem C3_counterexample :
    Request.getFile reqEmptyName "screenshot" = some ⟨"", pngBytes⟩ ∧
    (deploy_upload_screenshot reqEmptyName).status = 200 ∧
    (deploy_upload_screenshot reqEmptyName).status ≠ 400 := by
  decide

/-- Claim C3 as amended: on an empty filename, main.py returns 400 with the
JSON error No file selected, while deploy_render.py performs no filename
check and returns 200 with its advisory. -/
theorem C3_empty_filename (r : Request) (f : FilePart)
    (h : r.getFile "screenshot" = some f) (he : f.filename = "") :
    upload_screenshot r = ⟨400, Body.json [("error", "No file selected")]⟩ ∧
    deploy_upload_screenshot r = ⟨200, Body.text deployAdvisory⟩ := by
  rw [upload_screenshot_some r f h, if_pos he, deploy_upload_screenshot_some r f h]
  exact ⟨rfl, rfl⟩

/-- Witness for the amended C3 at the concrete empty-filename request. -/
theorem C3_witness :
    upload_screenshot reqEmptyName =
      ⟨400, Body.json [("error", "No file selected")]⟩ :=
  (C3_empty_filename reqEmptyName ⟨"", pngBytes⟩ (by decide) rfl).1

/-- Counterexample to claim C4: for a concrete valid upload, the
deploy_render.py variant answers 200 with its advisory, which does not
contain the substring Enemy spotted. -/
theorem C4_counterexample :
    (deploy_upload_screenshot reqPng).status = 200 ∧
    (deploy_upload_screenshot reqPng).body = Body.text deployAdvisory ∧
    containsSubstr deployAdvisory "Enemy spotted" = false := by
  decide

/-- Claim C4 as amended: for every valid upload the main.py 200 body
contains the substring Enemy spotted, while the deploy_render.py 200 body
does not contain it. -/
theorem C4_enemy_spotted (r : Request) (f : FilePart)
    (h : r.getFile "screenshot" = some f) (hn : f.filename ≠ "") :
    ((upload_screenshot r).status = 200 ∧
      (upload_screenshot r).body = Body.text mainAdvisory ∧
      containsSubstr mainAdvisory "Enemy spotted" = true) ∧
    ((deploy_upload_screenshot r).status = 200 ∧
      (deploy_upload_screenshot r).body = Body.text deployAdvisory ∧
      containsSubstr deployAdvisory "Enemy spotted" = false) := by
  rw [upload_screenshot_some r f h, if_neg hn, deploy_upload_screenshot_some r f h]
  exact ⟨⟨rfl, rfl, by decide⟩, ⟨rfl, rfl, by decide⟩⟩

/-- Witness for the amended C4 at the concrete PNG upload. -/
theorem C4_witness :
    (upload_screenshot reqPng).status = 200 ∧
    (upload_screenshot reqPng).body = Body.text mainAdvisory ∧
    containsSubstr mainAdvisory "Enemy spotted" = true :=
  (C4_enemy_spotted reqPng ⟨"screenshot.png", pngBytes⟩ (by decide) (by decide)).1

/-- Claim C5: the advisory does not depend on the uploaded bytes; any two
valid uploads, with arbitrary and possibly different contents and
filenames, receive identical responses from the main.py handler, which is a
pure function of the request. -/
theorem C5_content_independent (r1 r2 : Request) (f1 f2 : FilePart)
    (h1 : r1.getFile "screenshot" = some f1) (hn1 : f1.filename ≠ "")
    (h2 : r2.getFile "screenshot" = some f2) (hn2 : f2.filename ≠ "") :
    upload_screenshot r1 = upload_screenshot r2 := by
  rw [upload_screenshot_some r1 f1 h1, if_neg hn1,
      upload_screenshot_some r2 f2 h2, if_neg hn2]

/-- Witness for C5 on two uploads with different filenames and bytes. -/
theorem C5_witness : upload_screenshot reqPng = upload_screenshot reqJpg :=
  C5_content_independent reqPng reqJpg
    ⟨"screenshot.png", pngBytes⟩ ⟨"frame.jpg", [255, 216, 255]⟩
    (by decide) (by decide) (by decide) (by decide)

/-- Claim C6: start_capture is idempotent and deterministic in both
variants; every call returns 200 with a JSON body of the shape
status success plus a message string, and any two calls agree. -/
theorem C6_start_capture_idempotent (r1 r2 : Request) :
    start_capture r1 = start_capture r2 ∧
    (start_capture r1).status = 200 ∧
    (∃ m, (start_capture r1).body =
      Body.json [("status", "success"), ("message", m)]) ∧
    deploy_start_capture r1 = deploy_start_capture r2 ∧
    (deploy_start_capture r1).status = 200 ∧
    (∃ m, (deploy_start_capture r1).body =
      Body.json [("status", "success"), ("message", m)]) :=
  ⟨rfl, rfl, ⟨_, rfl⟩, rfl, rfl, ⟨_, rfl⟩⟩

/-- Claim C7: the main.py upload handler is total; every request gets
either exactly 200 with the plain-text advisory or exactly 400 with a
one-key JSON error body, and no other status exists. -/
theorem C7_upload_total_200_or_400 (r : Request) :
    ((upload_screenshot r).status = 200 ∧
      (upload_screenshot r).body = Body.text mainAdvisory) ∨
    ((upload_screenshot r).status = 400 ∧
      ∃ m, (upload_screenshot r).body = Body.json [("error", m)]) := by
  cases h : r.getFile "screenshot" with
  | none =>
      rw [upload_screenshot_none r h]
      exact Or.inr ⟨rfl, "No screenshot provided", rfl⟩
  | some f =>
      rw [upload_screenshot_some r f h]
      by_cases he : f.filename = ""
      · rw [if_pos he]
        exact Or.inr ⟨rfl, "No file selected", rfl⟩
      · rw [if_neg he]
        exact Or.inl ⟨rfl, rfl⟩

/-- Counterexample to claim C8: neither variant registers any route at the
path /upload. -/
theorem C8_counterexample :
    ((main_route_table.map routePath).contains "/upload") = false ∧
    ((deploy_route_table.map routePath).contains "/upload") = false := by
  decide

/-- Claim C8 as amended: the upload operation is exposed at POST
/upload_screenshot, not /upload; both route tables bind that path to the
upload_screenshot endpoint, no route uses /upload, and the handler answers
every request with status 200 or 400. -/
theorem C8_upload_screenshot_route :
    ("POST", "/upload_screenshot", "upload_screenshot") ∈ main_route_table ∧
    ("POST", "/upload_screenshot", "upload_screenshot") ∈ deploy_route_table ∧
    ((main_route_table.map routePath).contains "/upload") = false ∧
    ((deploy_route_table.map routePath).contains "/upload") = false ∧
    ∀ r : Request,
      (upload_screenshot r).status = 200 ∨ (upload_screenshot r).status = 400 := by
  refine ⟨by decide, by decide, by decide, by decide, ?_⟩
  intro r
  cases h : r.getFile "screenshot" with
  | none =>
      rw [upload_screenshot_none r h]
      exact Or.inr rfl
  | some f =>
      rw [upload_screenshot_some r f h]
      by_cases he : f.filename = ""
      · rw [if_pos he]
        exact Or.inr rfl
      · rw [if_neg he]
        exact Or.inl rfl

/-- Claim C9: the main.py handler never reads the uploaded content; for any
field part with a non-empty filename, whatever its bytes (empty or not a
decodable image), the response is exactly 200 with the fixed advisory. -/
theorem C9_content_never_read (r : Request) (f : FilePart)
    (h : r.getFile "screenshot" = some f) (hn : f.filename ≠ "") :
    upload_screenshot r = ⟨200, Body.text mainAdvisory⟩ := by
  rw [upload_screenshot_some r f h, if_neg hn]

/-- Witness for C9 at an upload whose content bytes are empty. -/
theorem C9_witness :
    upload_screenshot reqNoContent = ⟨200, Body.text mainAdvisory⟩ :=
  C9_content_never_read reqNoContent ⟨"empty.png", []⟩ (by decide) (by decide)

/-- Claim C10: the deploy_render.py handler performs no filename check; any
request with the screenshot field present, even with an empty filename,
gets 200 with the advisory text and never a 400. -/
theorem C10_deploy_no_filename_check (r : Request) (f : FilePart)
    (h : r.getFile "screenshot" = some f) :
    deploy_upload_screenshot r = ⟨200, Body.text deployAdvisory⟩ ∧
    (deploy_upload_screenshot r).status ≠ 400 := by
  rw [deploy_upload_screenshot_some r f h]
  exact ⟨rfl, by decide⟩

/-- Witness for C10 at the concrete empty-filename upload. -/
theorem C10_witness :
    deploy_upload_screenshot reqEmptyName = ⟨200, Body.text deployAdvisory⟩ :=
  (C10_deploy_no_filename_check reqEmptyName ⟨"", pngBytes⟩ (by decide)).1

end FreeFireCapture
